import Mathlib

/-!
Shallow embedding of the chat view component in `src/app/page.tsx` (the
near-duplicate `src/app/[personaId]/page.tsx` differs only in timing
constants and markup, so one embedding covers both).

The component's React state hooks become fields of an explicit record
`ChatState`; each event handler becomes a pure function from state to
state.  The reveal interval installed by `typeMessage` is modelled as an
optional `Timer` record stored in the state (the `typingIntervalRef`),
together with a `tick` function that is the body of the interval callback;
`runReveal` applies `tick` repeatedly with explicit fuel.  Network
completions (persona fetch, chat send, end-chat post) are passed in as
outcome parameters, and the JSON payloads the component would send are
returned as explicit request records.  Fresh ids and timestamps
(`Date.now()`, `new Date()`) are supplied as parameters.
-/

namespace ChatView

/-- Message role, the union type at page.tsx line 9. -/
inductive Role where
  | user
  | assistant
deriving DecidableEq

/-- One conversation turn, the `Message` interface (page.tsx lines 7-12).
`timestamp` is an abstract clock value standing for the `Date`. -/
structure Message where
  id : String
  role : Role
  content : String
  timestamp : Nat
deriving DecidableEq

/-- The normalized `Persona` interface (page.tsx lines 14-21); the unused
`avatar` display field is omitted. -/
structure Persona where
  id : String
  name : String
  description : String
  systemPrompt : String
  greeting : Option String
deriving DecidableEq

/-- The raw JSON body returned by `GET /persona/{id}`: every field the
component reads from `data` (page.tsx lines 76-82), each possibly absent.
The `id` field is pre-stringified, standing for `data.id?.toString()`. -/
structure PersonaData where
  id : Option String
  name : Option String
  description : Option String
  systemPrompt : Option String
  system_prompt : Option String
  greeting : Option String
deriving DecidableEq

/-- A `{role, content}` pair of the outgoing `conversationHistory`
(page.tsx lines 160-163). -/
structure ChatMsg where
  role : Role
  content : String
deriving DecidableEq

/-- The JSON body of the `POST /chat` request (page.tsx lines 168-172). -/
structure ChatRequest where
  personaId : Option String
  message : String
  conversationHistory : List ChatMsg
deriving DecidableEq

/-- The JSON body of the end-of-conversation `POST /chat` request
(page.tsx lines 207-215). -/
structure EndRequest where
  conversationEnded : Bool
  personaId : Option String
  message : String
  conversationHistory : List ChatMsg
deriving DecidableEq

/-- The reveal interval installed at page.tsx lines 120-141: the closed-over
reply `text` and the mutable cursor `index`. -/
structure Timer where
  text : String
  index : Nat
deriving DecidableEq

/-- The component's chat-session state: the `useState` hooks of lines 29-38
that the chat handlers touch, plus the `typingIntervalRef` of line 41. -/
structure ChatState where
  messages : List Message
  input : String
  isLoading : Bool
  typingText : String
  isTyping : Bool
  error : Option String
  isChatEnded : Bool
  timer : Option Timer
deriving DecidableEq

/-- The initial values of the `useState` hooks (page.tsx lines 29-38, 41). -/
def initState : ChatState :=
  { messages := []
    input := ""
    isLoading := false
    typingText := ""
    isTyping := false
    error := none
    isChatEnded := false
    timer := none }

/-- JavaScript `a || b` on strings: the empty string is falsy. -/
def strOr (a b : String) : String :=
  if a = "" then b else a

/-- JavaScript `String.prototype.trim`: drop whitespace from both ends
(structurally, so that it evaluates on concrete inputs). -/
def jsTrim (s : String) : String :=
  ⟨((s.data.dropWhile Char.isWhitespace).reverse.dropWhile
      Char.isWhitespace).reverse⟩

/-- JavaScript truthiness of the `personaId` value (page.tsx line 26):
`undefined`/`null` and the empty string are falsy. -/
def isTruthy : Option String → Bool
  | none => false
  | some s => s != ""

/-- Reduce a `Message` to the `{role, content}` pair sent to the backend
(page.tsx lines 160-163 and 211-214). -/
def toChatMsg (m : Message) : ChatMsg :=
  { role := m.role, content := m.content }

/-- Normalization of the persona payload (page.tsx lines 76-82):
`id` falls back to the route id, `name` to `'AI Assistant'`, `description`
to `''`, `systemPrompt` is `data.systemPrompt ?? data.system_prompt ?? ''`,
and `greeting` is carried through unchanged. -/
def normalizePersona (routeId : String) (data : PersonaData) : Persona :=
  { id := data.id.getD routeId
    name := data.name.getD "AI Assistant"
    description := data.description.getD ""
    systemPrompt := data.systemPrompt.getD (data.system_prompt.getD "")
    greeting := data.greeting }

/-- The header subtitle (page.tsx line 276):
`persona?.description || 'Powered by Gemini AI'` for a loaded persona. -/
def displaySubtitle (p : Persona) : String :=
  strOr p.description "Powered by Gemini AI"

/-- The header title (page.tsx line 275):
`persona?.name || 'AI Assistant'` for a loaded persona. -/
def displayTitle (p : Persona) : String :=
  strOr p.name "AI Assistant"

/-- The success path of `fetchPersona` (page.tsx lines 75-96): normalize the
payload, then seed the conversation with the greeting as the single first
message when `p.greeting` is truthy (`if (p.greeting)`), else with `[]`.
Returns the stored persona and the initialized message list; `now` stands
for `Date.now()` at the time of the response. -/
def fetchPersonaSuccess (routeId : String) (data : PersonaData) (now : Nat) :
    Persona × List Message :=
  let p := normalizePersona routeId data
  (p,
    match p.greeting with
    | some g =>
        if g = "" then []
        else [{ id := "greeting-" ++ toString now
                role := Role.assistant
                content := g
                timestamp := now }]
    | none => [])

/-- `typeMessage` up to installing the interval (page.tsx lines 106-119):
an empty reply (`if (!text)`) clears the typing flag, the transient buffer
and the pending flag and returns; a non-empty reply sets the typing flag,
resets the buffer, clears any previous interval and installs a fresh one
with cursor 0. -/
def typeMessage (text : String) (s : ChatState) : ChatState :=
  if text = "" then
    { s with isTyping := false, typingText := "", isLoading := false }
  else
    { s with isTyping := true
             typingText := ""
             timer := some { text := text, index := 0 } }

/-- The body of the interval callback (page.tsx lines 120-139): while the
cursor is inside the text, append `text.charAt(index)` to the transient
buffer and advance; once past the end, clear the interval, clear the typing
flag, append the full text as a fresh assistant `Message`, empty the
buffer and clear the pending flag.  `freshId`/`now` stand for
`Date.now().toString()` / `new Date()` at completion time.  A tick with no
installed interval is a no-op. -/
def tick (freshId : String) (now : Nat) (s : ChatState) : ChatState :=
  match s.timer with
  | none => s
  | some t =>
      if t.index < t.text.length then
        { s with typingText := s.typingText.push (t.text.data.getD t.index ' ')
                 timer := some { text := t.text, index := t.index + 1 } }
      else
        { s with timer := none
                 isTyping := false
                 messages := s.messages ++
                   [{ id := freshId, role := Role.assistant,
                      content := t.text, timestamp := now }]
                 typingText := ""
                 isLoading := false }

/-- Run the installed interval for up to `fuel` ticks, stopping once the
interval has cleared itself (models the interval firing repeatedly until
`clearInterval`). -/
def runReveal (freshId : String) (now : Nat) : Nat → ChatState → ChatState
  | 0, s => s
  | fuel + 1, s =>
      match s.timer with
      | none => s
      | some _ => runReveal freshId now fuel (tick freshId now s)

/-- Outcome of the `POST /chat` fetch inside `handleSubmit`: an ok response
with the optional `response` and `message` JSON fields (page.tsx line 178),
a non-ok response with its body text (line 175), or a thrown error whose
`.message` is present exactly when the thrown value is an `Error`
(lines 180-182). -/
inductive FetchOutcome where
  | ok (responseField : Option String) (messageField : Option String)
  | notOk (body : String)
  | netError (errMsg : Option String)
deriving DecidableEq

/-- The catch block of `handleSubmit` (page.tsx lines 180-193): clear the
pending flag, set the error text to the thrown message or the
`'Failed to send message'` fallback, and append the fixed apology as a
permanent assistant `Message` with id `err-${Date.now()}`. -/
def catchSubmitError (errMsg : Option String) (nowE : Nat) (s : ChatState) :
    ChatState :=
  { s with isLoading := false
           error := some (errMsg.getD "Failed to send message")
           messages := s.messages ++
             [{ id := "err-" ++ toString nowE, role := Role.assistant,
                content := "Sorry, I encountered an error. Please try again.",
                timestamp := nowE }] }

/-- The optimistic user `Message` built at page.tsx lines 147-152 from the
raw input buffer: id `Date.now().toString()`, role `'user'`, the untrimmed
content, and the current time. -/
def userMessage (now : Nat) (content : String) : Message :=
  { id := toString now
    role := Role.user
    content := content
    timestamp := now }

/-- The `POST /chat` body built at page.tsx lines 159-172: `historyToSend`
is the entire conversation so far — the pre-append `messages` value plus
the just-built user message — reduced to `{role, content}` pairs, and
`message` is the user message's content. -/
def submitRequest (pid : Option String) (now : Nat) (s : ChatState) :
    ChatRequest :=
  { personaId := pid
    message := (userMessage now s.input).content
    conversationHistory := (s.messages ++ [userMessage now s.input]).map
      toChatMsg }

/-- `handleSubmit` (page.tsx lines 144-194).  Guard of line 145:
`!input.trim() || isLoading || !personaId || isChatEnded` returns with no
state change and no request.  Otherwise: append the user message built from
the raw input, clear the input, set the pending flag, clear the error;
build `historyToSend` from the pre-append `messages` closure value plus the
new user message, each reduced to `{role, content}`; send
`{personaId, message, conversationHistory}`; then dispatch on the fetch
outcome — ok feeds `data.response || data.message || ''` to `typeMessage`,
non-ok throws `body || 'Failed to get response'` into the catch block, and
a network error goes to the catch block directly.  `now` stands for
`Date.now()` at submit time and `nowE` at error time.  Returns the new
state and the request issued, if any. -/
def handleSubmit (pid : Option String) (now nowE : Nat)
    (outcome : FetchOutcome) (s : ChatState) :
    ChatState × Option ChatRequest :=
  if jsTrim s.input = "" ∨ s.isLoading = true ∨ isTruthy pid = false ∨
      s.isChatEnded = true then
    (s, none)
  else
    match outcome with
    | FetchOutcome.ok r m =>
        (typeMessage (strOr (r.getD "") (strOr (m.getD "") ""))
          { s with messages := s.messages ++ [userMessage now s.input]
                   input := ""
                   isLoading := true
                   error := none },
         some (submitRequest pid now s))
    | FetchOutcome.notOk body =>
        (catchSubmitError (some (strOr body "Failed to get response")) nowE
          { s with messages := s.messages ++ [userMessage now s.input]
                   input := ""
                   isLoading := true
                   error := none },
         some (submitRequest pid now s))
    | FetchOutcome.netError em =>
        (catchSubmitError em nowE
          { s with messages := s.messages ++ [userMessage now s.input]
                   input := ""
                   isLoading := true
                   error := none },
         some (submitRequest pid now s))

/-- Outcome of the fire-and-forget end-of-chat notification: the `fetch` at
page.tsx lines 204-216 either proceeds, or throws an `Error` with a message
(caught at lines 217-222, which sets the error text), or throws a
non-`Error` value (only logged). -/
inductive NotifyOutcome where
  | success
  | thrownError (msg : String)
  | thrownOther
deriving DecidableEq

/-- `handleEndChat` (page.tsx lines 197-229): clear any active reveal
interval; build the end-of-conversation notification payload
(`conversationEnded: true`, the fixed message, the history reduced to
`{role, content}` pairs); a thrown `Error` sets the visible error text and
a non-`Error` throw is only logged; then unconditionally set the ended
flag, clear the typing flag, the transient buffer, the input buffer and
the pending flag. -/
def handleEndChat (pid : Option String) (o : NotifyOutcome) (s : ChatState) :
    ChatState × EndRequest :=
  let req : EndRequest :=
    { conversationEnded := true
      personaId := pid
      message := "User has ended the conversation."
      conversationHistory := s.messages.map toChatMsg }
  let s1 : ChatState :=
    match o with
    | NotifyOutcome.thrownError m => { s with error := some m }
    | _ => s
  ({ s1 with timer := none
             isChatEnded := true
             isTyping := false
             typingText := ""
             input := ""
             isLoading := false }, req)

/-- The implicit flag invariant of the view: a reveal can only be playing
while a reply is pending. -/
abbrev chatInv (s : ChatState) : Prop :=
  s.isTyping = true → s.isLoading = true

/-- With no installed interval, running the reveal loop is a no-op. -/
lemma runReveal_timer_none (freshId : String) (now : Nat) (fuel : Nat)
    (s : ChatState) (h : s.timer = none) :
    runReveal freshId now fuel s = s := by
  cases fuel with
  | zero => rfl
  | succ fuel => rw [runReveal, h]

/-- With no installed interval, a tick is a no-op. -/
lemma tick_timer_none (freshId : String) (now : Nat) (s : ChatState)
    (h : s.timer = none) : tick freshId now s = s := by
  rw [tick, h]

/-- Given enough fuel, the reveal loop runs the installed interval to
completion: the interval clears itself, the typing flag and transient
buffer are cleared, the pending flag is cleared, and exactly the full text
is appended as one assistant message. -/
lemma runReveal_complete (freshId : String) (now : Nat) :
    ∀ (fuel : Nat) (s : ChatState) (t : Timer), s.timer = some t →
      t.text.length - t.index < fuel →
      runReveal freshId now fuel s =
        { s with timer := none
                 isTyping := false
                 messages := s.messages ++
                   [{ id := freshId, role := Role.assistant,
                      content := t.text, timestamp := now }]
                 typingText := ""
                 isLoading := false } := by
  intro fuel
  induction fuel with
  | zero => intro s t ht hfuel; omega
  | succ fuel ih =>
      intro s t ht hfuel
      rw [runReveal, ht]
      by_cases hc : t.index < t.text.length
      · have htick : tick freshId now s =
            { s with typingText := s.typingText.push (t.text.data.getD t.index ' ')
                     timer := some { text := t.text, index := t.index + 1 } } := by
          rw [tick, ht]; simp [hc]
        rw [htick,
          ih _ { text := t.text, index := t.index + 1 } rfl (by simp; omega)]
      · have htick : tick freshId now s =
            { s with timer := none
                     isTyping := false
                     messages := s.messages ++
                       [{ id := freshId, role := Role.assistant,
                          content := t.text, timestamp := now }]
                     typingText := ""
                     isLoading := false } := by
          rw [tick, ht]; simp [hc]
        rw [htick, runReveal_timer_none _ _ _ _ rfl]

/-- Claim C1: for every reply text fed to the reveal timer, if the text is
empty then the typing flag, the transient reveal buffer and the
pending-reply flag are cleared and no message is appended; if the text is
non-empty then after the reveal runs to completion exactly one new
assistant message whose content is the full reply text is appended, the
transient buffer is empty, and the typing and pending flags are false. -/
theorem typeMessage_reveal_contract (s : ChatState) (text freshId : String)
    (now : Nat) :
    (text = "" →
      typeMessage text s =
        { s with isTyping := false, typingText := "", isLoading := false }) ∧
    (text ≠ "" →
      runReveal freshId now (text.length + 1) (typeMessage text s) =
        { s with messages := s.messages ++
                   [{ id := freshId, role := Role.assistant,
                      content := text, timestamp := now }]
                 typingText := ""
                 isTyping := false
                 isLoading := false
                 timer := none }) := by
  constructor
  · intro h
    rw [typeMessage, if_pos h]
  · intro h
    rw [typeMessage, if_neg h,
      runReveal_complete freshId now (text.length + 1) _
        { text := text, index := 0 } rfl
        (by show text.length - 0 < text.length + 1; omega)]

/-- Concrete instance of C1: revealing `"Hello"` from the initial state
appends exactly one assistant message `"Hello"` and clears buffer and
flags. -/
theorem typeMessage_reveal_contract_instance :
    runReveal "42" 7 ("Hello".length + 1) (typeMessage "Hello" initState) =
      { initState with
          messages := initState.messages ++
            [{ id := "42", role := Role.assistant,
               content := "Hello", timestamp := 7 }]
          typingText := ""
          isTyping := false
          isLoading := false
          timer := none } :=
  (typeMessage_reveal_contract initState "Hello" "42" 7).2 (by decide)

/-- Claim C2: submit is a no-op (no message appended, no request issued, no
state changed) unless the input is non-empty after trimming, no reply is
pending, a persona identifier is present, and the conversation has not
been ended. -/
theorem handleSubmit_noop_unless_valid (pid : Option String) (now nowE : Nat)
    (o : FetchOutcome) (s : ChatState)
    (h : ¬(jsTrim s.input ≠ "" ∧ s.isLoading = false ∧ isTruthy pid = true ∧
           s.isChatEnded = false)) :
    handleSubmit pid now nowE o s = (s, none) := by
  have hguard : jsTrim s.input = "" ∨ s.isLoading = true ∨
      isTruthy pid = false ∨ s.isChatEnded = true := by
    by_contra hc
    push_neg at hc
    obtain ⟨h1, h2, h3, h4⟩ := hc
    exact h ⟨h1, by simpa using h2, by simpa using h3, by simpa using h4⟩
  rw [handleSubmit.eq_def, if_pos hguard]

/-- Concrete instance of C2: submitting a whitespace-only input changes
nothing and issues no request. -/
theorem handleSubmit_noop_instance :
    handleSubmit (some "p1") 0 0 (FetchOutcome.ok none none)
        { initState with input := "   " } =
      ({ initState with input := "   " }, none) :=
  handleSubmit_noop_unless_valid (some "p1") 0 0 (FetchOutcome.ok none none)
    { initState with input := "   " } (by intro hc; exact hc.1 (by decide))

/-- Indexing an append at the length of the left part yields the first
element of the right part. -/
lemma getD_append_len {α : Type} (l : List α) (u : α) (rest : List α)
    (d : α) : (l ++ u :: rest).getD l.length d = u := by
  induction l with
  | nil => rfl
  | cons a l ih => simpa using ih

/-- A valid submit always issues exactly the request built by
`submitRequest`, whatever the fetch outcome. -/
lemma handleSubmit_req (pid : Option String) (now nowE : Nat)
    (o : FetchOutcome) (s : ChatState)
    (hguard : ¬(jsTrim s.input = "" ∨ s.isLoading = true ∨
      isTruthy pid = false ∨ s.isChatEnded = true)) :
    (handleSubmit pid now nowE o s).2 = some (submitRequest pid now s) := by
  rw [handleSubmit.eq_def, if_neg hguard]
  cases o <;> rfl

/-- The state after a valid submit whose fetch succeeded: the reply text is
fed to the reveal timer on top of the optimistically updated state. -/
lemma handleSubmit_ok_state (pid : Option String) (now nowE : Nat)
    (r m : Option String) (s : ChatState)
    (hguard : ¬(jsTrim s.input = "" ∨ s.isLoading = true ∨
      isTruthy pid = false ∨ s.isChatEnded = true)) :
    (handleSubmit pid now nowE (FetchOutcome.ok r m) s).1 =
      typeMessage (strOr (r.getD "") (strOr (m.getD "") ""))
        { s with messages := s.messages ++ [userMessage now s.input]
                 input := ""
                 isLoading := true
                 error := none } := by
  rw [handleSubmit.eq_def, if_neg hguard]

/-- The state after a valid submit whose fetch returned non-ok. -/
lemma handleSubmit_notOk_state (pid : Option String) (now nowE : Nat)
    (body : String) (s : ChatState)
    (hguard : ¬(jsTrim s.input = "" ∨ s.isLoading = true ∨
      isTruthy pid = false ∨ s.isChatEnded = true)) :
    (handleSubmit pid now nowE (FetchOutcome.notOk body) s).1 =
      catchSubmitError (some (strOr body "Failed to get response")) nowE
        { s with messages := s.messages ++ [userMessage now s.input]
                 input := ""
                 isLoading := true
                 error := none } := by
  rw [handleSubmit.eq_def, if_neg hguard]

/-- The state after a valid submit whose fetch threw. -/
lemma handleSubmit_netError_state (pid : Option String) (now nowE : Nat)
    (em : Option String) (s : ChatState)
    (hguard : ¬(jsTrim s.input = "" ∨ s.isLoading = true ∨
      isTruthy pid = false ∨ s.isChatEnded = true)) :
    (handleSubmit pid now nowE (FetchOutcome.netError em) s).1 =
      catchSubmitError em nowE
        { s with messages := s.messages ++ [userMessage now s.input]
                 input := ""
                 isLoading := true
                 error := none } := by
  rw [handleSubmit.eq_def, if_neg hguard]

/-- Claim C3: a valid submit sends the prior conversation with the new user
message appended as its last element, each turn reduced to a
`{role, content}` pair, and the request's `message` field is the new user
message's content. -/
theorem handleSubmit_history_payload (pid : Option String) (now nowE : Nat)
    (o : FetchOutcome) (s : ChatState)
    (h1 : jsTrim s.input ≠ "") (h2 : s.isLoading = false)
    (h3 : isTruthy pid = true) (h4 : s.isChatEnded = false) :
    (handleSubmit pid now nowE o s).2 =
      some { personaId := pid
             message := s.input
             conversationHistory := s.messages.map toChatMsg ++
               [{ role := Role.user, content := s.input }] } := by
  have hguard : ¬(jsTrim s.input = "" ∨ s.isLoading = true ∨
      isTruthy pid = false ∨ s.isChatEnded = true) := by
    push_neg
    exact ⟨h1, by simp [h2], by simp [h3], by simp [h4]⟩
  rw [handleSubmit_req pid now nowE o s hguard]
  simp [submitRequest, userMessage, toChatMsg]

/-- Concrete instance of C3: the outgoing history is the two prior turns
plus the typed text, reduced to role/content pairs. -/
theorem handleSubmit_history_payload_instance :
    (handleSubmit (some "p1") 5 6 (FetchOutcome.notOk "boom")
        { initState with
            messages := [{ id := "a", role := Role.assistant,
                           content := "Hi there", timestamp := 0 },
                         { id := "b", role := Role.user,
                           content := "Hello", timestamp := 1 }]
            input := "What can you do?" }).2 =
      some { personaId := some "p1"
             message := "What can you do?"
             conversationHistory :=
               [{ role := Role.assistant, content := "Hi there" },
                { role := Role.user, content := "Hello" },
                { role := Role.user, content := "What can you do?" }] } := by
  have := handleSubmit_history_payload (some "p1") 5 6
    (FetchOutcome.notOk "boom")
    { initState with
        messages := [{ id := "a", role := Role.assistant,
                       content := "Hi there", timestamp := 0 },
                     { id := "b", role := Role.user,
                       content := "Hello", timestamp := 1 }]
        input := "What can you do?" }
    (by decide) (by decide) (by decide) (by decide)
  simpa [toChatMsg] using this

/-- Claim C5: when the chat send fails — non-ok response or network error —
the handler sets the error text to the server message or the fixed
fallback, clears the pending flag, and appends exactly one permanent
assistant message with the fixed apology content after the user's turn. -/
theorem handleSubmit_failure_apology (pid : Option String) (now nowE : Nat)
    (body : String) (em : Option String) (s : ChatState)
    (h1 : jsTrim s.input ≠ "") (h2 : s.isLoading = false)
    (h3 : isTruthy pid = true) (h4 : s.isChatEnded = false) :
    (handleSubmit pid now nowE (FetchOutcome.notOk body) s).1 =
      { s with
          messages := (s.messages ++
              [{ id := toString now, role := Role.user,
                 content := s.input, timestamp := now }]) ++
            [{ id := "err-" ++ toString nowE, role := Role.assistant,
               content := "Sorry, I encountered an error. Please try again.",
               timestamp := nowE }]
          input := ""
          isLoading := false
          error := some (strOr body "Failed to get response") } ∧
    (handleSubmit pid now nowE (FetchOutcome.netError em) s).1 =
      { s with
          messages := (s.messages ++
              [{ id := toString now, role := Role.user,
                 content := s.input, timestamp := now }]) ++
            [{ id := "err-" ++ toString nowE, role := Role.assistant,
               content := "Sorry, I encountered an error. Please try again.",
               timestamp := nowE }]
          input := ""
          isLoading := false
          error := some (em.getD "Failed to send message") } := by
  have hguard : ¬(jsTrim s.input = "" ∨ s.isLoading = true ∨
      isTruthy pid = false ∨ s.isChatEnded = true) := by
    push_neg
    exact ⟨h1, by simp [h2], by simp [h3], by simp [h4]⟩
  constructor
  · rw [handleSubmit.eq_def, if_neg hguard]
    rfl
  · rw [handleSubmit.eq_def, if_neg hguard]
    rfl

/-- Concrete instance of C5: a failed send with server body `"boom"` sets
the error to `"boom"`, clears the pending flag, and appends the user turn
and the apology turn. -/
theorem handleSubmit_failure_apology_instance :
    (handleSubmit (some "p1") 5 6 (FetchOutcome.notOk "boom")
        { initState with input := "hi" }).1 =
      { initState with
          messages := ([] ++
              [{ id := toString 5, role := Role.user,
                 content := "hi", timestamp := 5 }]) ++
            [{ id := "err-" ++ toString 6, role := Role.assistant,
               content := "Sorry, I encountered an error. Please try again.",
               timestamp := 6 }]
          input := ""
          isLoading := false
          error := some (strOr "boom" "Failed to get response") } :=
  (handleSubmit_failure_apology (some "p1") 5 6 "boom" none
    { initState with input := "hi" }
    (by decide) (by decide) (by decide) (by decide)).1

/-- Claim C10: the stored user message and the transmitted `message` field
are the raw input buffer exactly — trimming happens only in the guard,
never to the stored or sent text. -/
theorem rawInput_transmitted (pid : Option String) (now nowE : Nat)
    (o : FetchOutcome) (s : ChatState)
    (h1 : jsTrim s.input ≠ "") (h2 : s.isLoading = false)
    (h3 : isTruthy pid = true) (h4 : s.isChatEnded = false) :
    ((handleSubmit pid now nowE o s).1.messages.getD s.messages.length
        { id := "", role := Role.user, content := "", timestamp := 0 }).content
      = s.input ∧
    (∀ req, (handleSubmit pid now nowE o s).2 = some req →
      req.message = s.input) := by
  have hguard : ¬(jsTrim s.input = "" ∨ s.isLoading = true ∨
      isTruthy pid = false ∨ s.isChatEnded = true) := by
    push_neg
    exact ⟨h1, by simp [h2], by simp [h3], by simp [h4]⟩
  constructor
  · rw [handleSubmit.eq_def, if_neg hguard]
    cases o with
    | ok r m =>
        by_cases he : strOr (r.getD "") (strOr (m.getD "") "") = "" <;>
          simp [typeMessage, he, getD_append_len, userMessage]
    | notOk body =>
        simp [catchSubmitError, List.append_assoc, getD_append_len,
          userMessage, List.getElem_append_right]
    | netError em =>
        simp [catchSubmitError, List.append_assoc, getD_append_len,
          userMessage, List.getElem_append_right]
  · intro req h
    rw [handleSubmit_req pid now nowE o s hguard] at h
    injection h with h
    rw [← h]
    rfl

/-- Concrete instance of C10: a padded input `"  hi  "` is stored and sent
verbatim, untrimmed. -/
theorem rawInput_transmitted_instance :
    ((handleSubmit (some "p1") 5 6 (FetchOutcome.ok (some "ok") none)
        { initState with input := "  hi  " }).1.messages.getD 0
        { id := "", role := Role.user, content := "", timestamp := 0 }).content
      = "  hi  " ∧
    (∀ req,
      (handleSubmit (some "p1") 5 6 (FetchOutcome.ok (some "ok") none)
          { initState with input := "  hi  " }).2 = some req →
      req.message = "  hi  ") :=
  rawInput_transmitted (some "p1") 5 6 (FetchOutcome.ok (some "ok") none)
    { initState with input := "  hi  " }
    (by decide) (by decide) (by decide) (by decide)

/-- Counterexample to claim C4 as stated: the persona payload whose
`greeting` field is present but equal to the empty string.  The response
contains a greeting, yet the conversation is initialized to the empty
list rather than to one assistant message with that greeting, because the
seeding test is JavaScript truthiness (`if (p.greeting)`), which an empty
string fails. -/
theorem fetchPersona_empty_greeting_counterexample :
    (PersonaData.mk none none none none none (some "")).greeting =
        some "" ∧
    (fetchPersonaSuccess "abc"
        (PersonaData.mk none none none none none (some "")) 0).2 = [] := by
  constructor
  · rfl
  · rfl

/-- Claim C4 (amended): a successful persona fetch with a non-empty
greeting initializes the conversation to exactly one assistant message
whose content is the greeting; with an absent or empty greeting it
initializes the conversation to the empty list. -/
theorem fetchPersona_greeting_seed (routeId : String) (data : PersonaData)
    (now : Nat) :
    ((data.greeting = none ∨ data.greeting = some "") →
      (fetchPersonaSuccess routeId data now).2 = []) ∧
    (∀ g, data.greeting = some g → g ≠ "" →
      (fetchPersonaSuccess routeId data now).2 =
        [{ id := "greeting-" ++ toString now, role := Role.assistant,
           content := g, timestamp := now }]) := by
  constructor
  · rintro (h | h) <;>
      simp [fetchPersonaSuccess, normalizePersona, h]
  · intro g hg hne
    simp [fetchPersonaSuccess, normalizePersona, hg, hne]

/-- Concrete instance of C4 (amended): greeting `"Hi there"` seeds exactly
one assistant message with that content. -/
theorem fetchPersona_greeting_seed_instance :
    (fetchPersonaSuccess "abc"
        (PersonaData.mk none (some "Rex") none none none (some "Hi there"))
        3).2 =
      [{ id := "greeting-" ++ toString 3, role := Role.assistant,
         content := "Hi there", timestamp := 3 }] :=
  (fetchPersona_greeting_seed "abc"
      (PersonaData.mk none (some "Rex") none none none (some "Hi there"))
      3).2 "Hi there" rfl (by decide)

/-- Claim C6: ending the conversation while a reveal is in progress clears
the interval, discards the transient buffer, and never commits the
revealed text: the message list is untouched by the end action and every
later tick of the (cleared) interval is a no-op. -/
theorem handleEndChat_discards_reveal (pid : Option String)
    (o : NotifyOutcome) (freshId : String) (now : Nat) (s : ChatState)
    (h : s.isTyping = true) :
    (handleEndChat pid o s).1.timer = none ∧
    (handleEndChat pid o s).1.typingText = "" ∧
    (handleEndChat pid o s).1.messages = s.messages ∧
    (∀ fuel, runReveal freshId now fuel (handleEndChat pid o s).1 =
      (handleEndChat pid o s).1) := by
  refine ⟨?_, ?_, ?_, ?_⟩
  · cases o <;> rfl
  · cases o <;> rfl
  · cases o <;> rfl
  · intro fuel
    refine runReveal_timer_none freshId now fuel _ ?_
    cases o <;> rfl

/-- A concrete state in the middle of a reveal: buffer `"Hel"`, cursor 3
into the reply `"Hello"`, typing and pending flags set. -/
def midReveal : ChatState :=
  { initState with
      isTyping := true
      isLoading := true
      typingText := "Hel"
      timer := some { text := "Hello", index := 3 } }

/-- Concrete instance of C6: ending mid-reveal (buffer `"Hel"`, cursor 3
into `"Hello"`) leaves the transcript unchanged and the interval dead. -/
theorem handleEndChat_discards_reveal_instance :
    (handleEndChat (some "p1") NotifyOutcome.success midReveal).1.timer
        = none ∧
    (handleEndChat (some "p1") NotifyOutcome.success midReveal).1.typingText
        = "" ∧
    (handleEndChat (some "p1") NotifyOutcome.success midReveal).1.messages
        = midReveal.messages ∧
    (∀ fuel, runReveal "9" 4 fuel
        (handleEndChat (some "p1") NotifyOutcome.success midReveal).1 =
      (handleEndChat (some "p1") NotifyOutcome.success midReveal).1) :=
  handleEndChat_discards_reveal (some "p1") NotifyOutcome.success "9" 4
    midReveal rfl

/-- Claim C7: whatever the outcome of the fire-and-forget notification,
ending the conversation sets the ended flag and clears the typing flag,
the pending flag, the transient buffer and the input buffer, leaving the
transcript intact; a thrown `Error` only sets the visible error text, and
a successful notification leaves the error text unchanged. -/
theorem handleEndChat_unconditional_end (pid : Option String)
    (o : NotifyOutcome) (s : ChatState) :
    (handleEndChat pid o s).1.isChatEnded = true ∧
    (handleEndChat pid o s).1.isTyping = false ∧
    (handleEndChat pid o s).1.isLoading = false ∧
    (handleEndChat pid o s).1.typingText = "" ∧
    (handleEndChat pid o s).1.input = "" ∧
    (handleEndChat pid o s).1.messages = s.messages ∧
    (handleEndChat pid o s).2 =
      { conversationEnded := true
        personaId := pid
        message := "User has ended the conversation."
        conversationHistory := s.messages.map toChatMsg } ∧
    (∀ m, o = NotifyOutcome.thrownError m →
      (handleEndChat pid o s).1.error = some m) ∧
    (o = NotifyOutcome.success →
      (handleEndChat pid o s).1.error = s.error) := by
  refine ⟨?_, ?_, ?_, ?_, ?_, ?_, ?_, ?_, ?_⟩ <;>
    first
      | (cases o <;> rfl)
      | (rintro m rfl; rfl)
      | (rintro rfl; rfl)

/-- Concrete instance of C7: a failing notification still ends the chat,
clears the flags and buffers, and sets the error text to the thrown
message. -/
theorem handleEndChat_unconditional_end_instance :
    (handleEndChat (some "p1") (NotifyOutcome.thrownError "offline")
        { initState with input := "draft", isLoading := true }).1.isChatEnded
        = true ∧
    (handleEndChat (some "p1") (NotifyOutcome.thrownError "offline")
        { initState with input := "draft", isLoading := true }).1.input
        = "" ∧
    (handleEndChat (some "p1") (NotifyOutcome.thrownError "offline")
        { initState with input := "draft", isLoading := true }).1.error
        = some "offline" :=
  ⟨(handleEndChat_unconditional_end (some "p1")
      (NotifyOutcome.thrownError "offline")
      { initState with input := "draft", isLoading := true }).1,
   (handleEndChat_unconditional_end (some "p1")
      (NotifyOutcome.thrownError "offline")
      { initState with input := "draft", isLoading := true }).2.2.2.2.1,
   (handleEndChat_unconditional_end (some "p1")
      (NotifyOutcome.thrownError "offline")
      { initState with input := "draft", isLoading := true }).2.2.2.2.2.2.2.1
     "offline" rfl⟩

/-- Claim C8: persona normalization defaults — a missing `name` becomes the
`'AI Assistant'` placeholder; a missing `description` becomes `''`, which
the header then renders as the `'Powered by Gemini AI'` placeholder
subtitle; the system prompt is taken from `systemPrompt` or, failing that,
from `system_prompt`; and the optional greeting is carried through
unchanged. -/
theorem normalizePersona_defaults (routeId : String) (data : PersonaData) :
    (data.name = none →
      (normalizePersona routeId data).name = "AI Assistant") ∧
    (data.description = none →
      (normalizePersona routeId data).description = "" ∧
      displaySubtitle (normalizePersona routeId data) =
        "Powered by Gemini AI") ∧
    (∀ sp, data.systemPrompt = some sp →
      (normalizePersona routeId data).systemPrompt = sp) ∧
    (data.systemPrompt = none → ∀ sp, data.system_prompt = some sp →
      (normalizePersona routeId data).systemPrompt = sp) ∧
    (normalizePersona routeId data).greeting = data.greeting := by
  refine ⟨?_, ?_, ?_, ?_, rfl⟩
  · intro h
    simp [normalizePersona, h]
  · intro h
    simp [normalizePersona, displaySubtitle, strOr, h]
  · intro sp h
    simp [normalizePersona, h]
  · intro h sp h2
    simp [normalizePersona, h, h2]

/-- Concrete instance of C8: a payload with every field absent except a
snake-case prompt normalizes to the placeholder name, empty description
with placeholder subtitle, that prompt, and no greeting. -/
theorem normalizePersona_defaults_instance :
    (normalizePersona "abc"
        (PersonaData.mk none none none none (some "be helpful") none)).name
      = "AI Assistant" ∧
    displaySubtitle
        (normalizePersona "abc"
          (PersonaData.mk none none none none (some "be helpful") none))
      = "Powered by Gemini AI" ∧
    (normalizePersona "abc"
        (PersonaData.mk none none none none (some "be helpful")
          none)).systemPrompt
      = "be helpful" :=
  ⟨(normalizePersona_defaults "abc"
      (PersonaData.mk none none none none (some "be helpful") none)).1 rfl,
   ((normalizePersona_defaults "abc"
      (PersonaData.mk none none none none (some "be helpful")
        none)).2.1 rfl).2,
   (normalizePersona_defaults "abc"
      (PersonaData.mk none none none none (some "be helpful")
        none)).2.2.2.1 rfl "be helpful" rfl⟩

/-- Claim C9: the implicit invariant "typing implies loading" holds in the
initial state and is preserved by submit (with any fetch outcome,
including the empty-reply path), by every reveal tick (including the
completing one), and by ending the conversation; consequently a submit
while a reveal is playing is a no-op. -/
theorem typing_implies_loading_invariant :
    chatInv initState ∧
    (∀ (pid : Option String) (now nowE : Nat) (o : FetchOutcome)
        (s : ChatState), chatInv s →
      chatInv (handleSubmit pid now nowE o s).1) ∧
    (∀ (freshId : String) (now : Nat) (s : ChatState), chatInv s →
      chatInv (tick freshId now s)) ∧
    (∀ (pid : Option String) (o : NotifyOutcome) (s : ChatState),
      chatInv (handleEndChat pid o s).1) ∧
    (∀ (pid : Option String) (now nowE : Nat) (o : FetchOutcome)
        (s : ChatState), chatInv s → s.isTyping = true →
      handleSubmit pid now nowE o s = (s, none)) := by
  refine ⟨by simp [initState], ?_, ?_, ?_, ?_⟩
  · intro pid now nowE o s hs
    by_cases hguard : jsTrim s.input = "" ∨ s.isLoading = true ∨
        isTruthy pid = false ∨ s.isChatEnded = true
    · rw [handleSubmit.eq_def, if_pos hguard]
      exact hs
    · cases o with
      | ok r m =>
          rw [handleSubmit_ok_state pid now nowE r m s hguard, typeMessage]
          by_cases he : strOr (r.getD "") (strOr (m.getD "") "") = ""
          · rw [if_pos he]
            intro h
            simp at h
          · rw [if_neg he]
            intro _
            rfl
      | notOk body =>
          rw [handleSubmit_notOk_state pid now nowE body s hguard,
            catchSubmitError]
          intro h
          exact absurd (hs h) (by push_neg at hguard; exact hguard.2.1)
      | netError em =>
          rw [handleSubmit_netError_state pid now nowE em s hguard,
            catchSubmitError]
          intro h
          exact absurd (hs h) (by push_neg at hguard; exact hguard.2.1)
  · intro freshId now s hs
    cases ht : s.timer with
    | none =>
        rw [tick_timer_none freshId now s ht]
        exact hs
    | some t =>
        by_cases hc : t.index < t.text.length
        · have htick : tick freshId now s =
              { s with typingText :=
                         s.typingText.push (t.text.data.getD t.index ' ')
                       timer := some { text := t.text, index := t.index + 1 } } := by
            rw [tick, ht]
            simp [hc]
          rw [htick]
          exact fun h => hs h
        · have htick : tick freshId now s =
              { s with timer := none
                       isTyping := false
                       messages := s.messages ++
                         [{ id := freshId, role := Role.assistant,
                            content := t.text, timestamp := now }]
                       typingText := ""
                       isLoading := false } := by
            rw [tick, ht]
            simp [hc]
          rw [htick]
          intro h
          simp at h
  · intro pid o s
    intro h
    have hfalse : (handleEndChat pid o s).1.isTyping = false := by
      cases o <;> rfl
    rw [hfalse] at h
    simp at h
  · intro pid now nowE o s hs hty
    have hload : s.isLoading = true := hs hty
    rw [handleSubmit.eq_def, if_pos (Or.inr (Or.inl hload))]

/-- Concrete instance of C9: the invariant holds initially, survives a
submit, a tick and an end action from concrete states, and a submit from
the concrete mid-reveal state changes nothing. -/
theorem typing_implies_loading_invariant_instance :
    chatInv (handleSubmit (some "p1") 0 1 (FetchOutcome.ok (some "y") none)
      { initState with input := "q" }).1 ∧
    chatInv (tick "8" 2 midReveal) ∧
    chatInv (handleEndChat (some "p1") NotifyOutcome.thrownOther
      midReveal).1 ∧
    handleSubmit (some "p1") 0 1 (FetchOutcome.ok (some "y") none)
        { midReveal with input := "q" } =
      ({ midReveal with input := "q" }, none) :=
  ⟨typing_implies_loading_invariant.2.1 (some "p1") 0 1
      (FetchOutcome.ok (some "y") none) { initState with input := "q" }
      (by decide),
   typing_implies_loading_invariant.2.2.1 "8" 2 midReveal (by decide),
   typing_implies_loading_invariant.2.2.2.1 (some "p1")
      NotifyOutcome.thrownOther midReveal,
   typing_implies_loading_invariant.2.2.2.2 (some "p1") 0 1
      (FetchOutcome.ok (some "y") none) { midReveal with input := "q" }
      (by decide) (by decide)⟩

end ChatView
